import Mathlib

/-!
Verification of the synthetic-data generation core of the `datareplicator`
repository, shallowly embedded in Lean.

The embedded functions mirror, definition by definition, the Python code in
`src/datareplicator/generation/` (generators `base.py`, `random_generator.py`,
`statistical_generator.py`, the orchestration in `generator_service.py`, and
the samplers in `utils/sampling.py`).  Randomness sources (`np.random.*`,
`random.*`) are modelled as explicit oracle arguments supplying the raw draws;
everything downstream of a draw (clipping, rounding, restriction, repair,
assembly, statistics, status bookkeeping) is embedded faithfully.  Python
floats are modelled by `ℚ`, Python ints by `ℤ`/`ℕ`, exceptions by
`Except String` / `Option`.
-/

namespace DataReplicator

/-- Model of `GenerationStatus` from `generation/models/results.py`: the five members of
the enum.  Note that the enum has no `PARTIAL` member. -/
inductive GenerationStatus where
  | pending
  | inProgress
  | completed
  | failed
  | cancelled
deriving DecidableEq, Repr

/-- Attribute access `GenerationStatus.<name>` on the Python enum: `some`
member for the five defined names, `none` (an `AttributeError` carrying the
name) for anything else — in particular for `"PARTIAL"`, which
`generator_service.py` references but `results.py` never defines. -/
def generationStatusMember (s : String) : Option GenerationStatus :=
  if s = "PENDING" then some .pending
  else if s = "IN_PROGRESS" then some .inProgress
  else if s = "COMPLETED" then some .completed
  else if s = "FAILED" then some .failed
  else if s = "CANCELLED" then some .cancelled
  else none

/-- A data-quality check result (`DataQualityCheck` in
`generation/models/results.py`), restricted to the fields that
`BaseGenerator.calculate_quality_score` reads: `check_type`, `passed`,
`issue_count`. -/
structure DataQualityCheck where
  checkType : String
  passed : Bool
  issueCount : ℕ
deriving DecidableEq, Repr

/-- The per-check penalty applied by the loop body of
`BaseGenerator.calculate_quality_score` (base.py lines 250-265): failed checks
subtract `weight * issue_count / total_records`, with weight 20 for
`missing_values`, 15 for `duplicate_values`, 10 for `out_of_range`, 5 for
`invalid_format` and 5 for anything else; passed checks subtract nothing. -/
def checkPenalty (c : DataQualityCheck) (totalRecords : ℕ) : ℚ :=
  if c.passed then 0
  else
    let impact : ℚ := (c.issueCount : ℚ) / (totalRecords : ℚ)
    if c.checkType = "missing_values" then 20 * impact
    else if c.checkType = "duplicate_values" then 15 * impact
    else if c.checkType = "out_of_range" then 10 * impact
    else if c.checkType = "invalid_format" then 5 * impact
    else 5 * impact

/-- Model of `BaseGenerator.calculate_quality_score` (base.py lines 229-268), with
`totalRecords` standing for `self.result.record_count`.  The branch order is
the code's: the empty-check-list early return of `100.0` comes before the
zero-records early return of `0.0`. -/
def calculate_quality_score (qualityChecks : List DataQualityCheck)
    (totalRecords : ℕ) : ℚ :=
  if qualityChecks = [] then 100
  else if totalRecords = 0 then 0
  else
    let score := qualityChecks.foldl
      (fun s c => s - checkPenalty c totalRecords) 100
    max 0 (min 100 score)

/-- The missing-values branch of `BaseGenerator.perform_quality_checks`
(base.py lines 162-179) for one variable: a check is recorded only when the
column has missing entries and either the variable is not nullable or the
missing count exceeds half of `self.record_count`; the recorded check's
`passed` flag is the variable's `nullable` flag.  The Python comparison
`missing_count > self.record_count * 0.5` is rendered as
`2 * missingCount > recordCount`, which is equivalent for the exact float
`record_count * 0.5`. -/
def missingValuesCheck (nullable : Bool) (missingCount recordCount : ℕ) :
    Option DataQualityCheck :=
  if missingCount > 0 then
    if !nullable || 2 * missingCount > recordCount then
      some { checkType := "missing_values", passed := nullable,
             issueCount := missingCount }
    else none
  else none

/-- The distribution parameters dictionary (`params : Dict[str, Any]`) of
`sample_numeric` in `generation/utils/sampling.py`, with one optional field per
key the function reads via `params.get`. -/
structure NumericParams where
  mean : Option ℚ := none
  std : Option ℚ := none
  low : Option ℚ := none
  high : Option ℚ := none
  lam : Option ℚ := none
  scale : Option ℚ := none
  shape : Option ℚ := none
  alpha : Option ℚ := none
  beta : Option ℚ := none
  sigma : Option ℚ := none
  n : Option ℕ := none
  p : Option ℚ := none
deriving DecidableEq, Repr

/-- The `np.random.*` call a branch of `sample_numeric` issues, with the
parameters it passes. -/
inductive DrawCall where
  | normal (mean std : ℚ)
  | uniform (low high : ℚ)
  | poisson (lam : ℚ)
  | exponential (scale : ℚ)
  | gamma (shape scale : ℚ)
  | beta (alpha beta : ℚ)
  | lognormal (mean sigma : ℚ)
  | binomial (n : ℕ) (p : ℚ)
deriving DecidableEq, Repr

/-- The distribution dispatch of `sample_numeric` (sampling.py lines 46-88):
which random draw is issued for a given distribution name, including the
parameter defaults.  An unrecognised name falls through to the final `else`
branch, which issues the same uniform draw as the `"uniform"` branch — no
error is ever raised. -/
def sampleNumericCall (distribution : String) (params : NumericParams)
    (minValue maxValue : Option ℚ) : DrawCall :=
  if distribution = "normal" then
    .normal (params.mean.getD 0) (params.std.getD 1)
  else if distribution = "uniform" then
    .uniform (match minValue with | none => params.low.getD 0 | some a => a)
             (match maxValue with | none => params.high.getD 1 | some b => b)
  else if distribution = "poisson" then .poisson (params.lam.getD 5)
  else if distribution = "exponential" then .exponential (params.scale.getD 1)
  else if distribution = "gamma" then
    .gamma (params.shape.getD 1) (params.scale.getD 1)
  else if distribution = "beta" then
    .beta (params.alpha.getD 1) (params.beta.getD 1)
  else if distribution = "lognormal" then
    .lognormal (params.mean.getD 0) (params.sigma.getD 1)
  else if distribution = "binomial" then
    .binomial (params.n.getD 10) (params.p.getD (1/2))
  else
    .uniform (match minValue with | none => params.low.getD 0 | some a => a)
             (match maxValue with | none => params.high.getD 1 | some b => b)

/-- The constraint application of `sample_numeric` (sampling.py lines 90-94):
`np.maximum(values, min_value)` followed by `np.minimum(values, max_value)`,
each applied only when the bound is present. -/
def clipValues (minValue maxValue : Option ℚ) (values : List ℚ) : List ℚ :=
  let v1 := match minValue with
    | some a => values.map (fun x => max x a)
    | none => values
  match maxValue with
  | some b => v1.map (fun x => min x b)
  | none => v1

/-- Model of `np.round` on one value: round half to even (banker's rounding), the IEEE
behaviour of numpy's rounding. -/
def roundHalfEven (x : ℚ) : ℤ :=
  let f := ⌊x⌋
  let r := x - (f : ℚ)
  if r < 1/2 then f
  else if r > 1/2 then f + 1
  else if f % 2 = 0 then f else f + 1

/-- Model of `sample_numeric` (sampling.py lines 17-100) downstream of the random draw:
`raws` is the list of values returned by the `np.random` call described by
`sampleNumericCall`; the function then clips to `[min_value, max_value]` and,
if `as_integer`, rounds half-to-even and casts to int — rounding happens after
clipping. -/
def sample_numeric (minValue maxValue : Option ℚ) (asInteger : Bool)
    (raws : List ℚ) : List ℚ :=
  let values := clipValues minValue maxValue raws
  if asInteger then values.map (fun x => ((roundHalfEven x : ℤ) : ℚ))
  else values

/-- The Gregorian leap-year test exactly as written in
`StatisticalGenerator._generate_date_from_distribution`
(statistical_generator.py line 333):
`year % 4 == 0 and (year % 100 != 0 or year % 400 == 0)`. -/
def isLeapYear (y : ℤ) : Bool :=
  y % 4 = 0 && (y % 100 ≠ 0 || y % 400 = 0)

/-- Number of days in a month of a given year (for months `1..12`). -/
def daysInMonth (y m : ℤ) : ℤ :=
  if m = 2 then (if isLeapYear y then 29 else 28)
  else if m = 4 ∨ m = 6 ∨ m = 9 ∨ m = 11 then 30
  else 31

/-- Validity of `datetime.datetime(year, month, day)` (Python raises
`ValueError` outside these bounds; `MINYEAR = 1`, `MAXYEAR = 9999`). -/
def isValidDate (y m d : ℤ) : Bool :=
  1 ≤ y && y ≤ 9999 && 1 ≤ m && m ≤ 12 && 1 ≤ d && d ≤ daysInMonth y m

/-- The per-row body of
`StatisticalGenerator._generate_date_from_distribution`
(statistical_generator.py lines 322-347): try the sampled components as a
date; on `ValueError` clamp the day (February leap-aware `min(day, 29/28)`,
`min(day, 30)` for months 4/6/9/11, `min(day, 31)` otherwise) and retry; on a
second `ValueError` fall back to day 15.  `none` models a `ValueError` from
the final `datetime` call, which the code does not catch. -/
def repairDateComponents (y m d : ℤ) : Option (ℤ × ℤ × ℤ) :=
  if isValidDate y m d then some (y, m, d)
  else
    let d2 :=
      if m = 2 then (if isLeapYear y then min d 29 else min d 28)
      else if m = 4 ∨ m = 6 ∨ m = 9 ∨ m = 11 then min d 30
      else min d 31
    if isValidDate y m d2 then some (y, m, d2)
    else if isValidDate y m 15 then some (y, m, 15)
    else none

/-- The allowed-value restriction of
`StatisticalGenerator._generate_categorical_from_distribution`
(statistical_generator.py lines 277-288).  `fitted` pairs each fitted value
with its empirical probability (the parallel `values`/`probabilities` lists of
the fitted distribution).  When constraints carry a non-empty allowed-value
list, the fitted pairs are filtered to the allowed values and the
probabilities renormalised — but only when at least one fitted value is
allowed (`if allowed_indices:`); otherwise the unrestricted fitted pairs are
used as-is.  `np.random.choice` then draws the generated values from the
first components of the returned pairs. -/
def restrictCategorical (fitted : List (String × ℚ))
    (allowedValues : Option (List String)) : List (String × ℚ) :=
  match allowedValues with
  | none => fitted
  | some allowed =>
    if allowed = [] then fitted
    else
      let filtered := fitted.filter (fun v => allowed.contains v.1)
      if filtered = [] then fitted
      else
        let total := (filtered.map (fun v => v.2)).sum
        filtered.map (fun v => (v.1, v.2 / total))

/-- Model of `VariableGenerationConfig` (generation/models/config.py), restricted to
the fields the embedded generator paths read. -/
structure VariableGenerationConfig where
  variableName : String
  dataType : String
deriving DecidableEq, Repr

/-- Model of `DomainGenerationConfig` (generation/models/config.py), restricted to the
fields the embedded generator paths read. -/
structure DomainGenerationConfig where
  domainName : String
  recordCount : ℕ
  subjectCount : ℕ
  domainVariables : List VariableGenerationConfig
deriving DecidableEq, Repr

/-- A generated table: pandas `DataFrame` as a list of named columns. -/
abbrev Frame := List (String × List String)

/-- Model of `len(data)` on a DataFrame built from equal-length columns: the row count
is the length of the first column (0 for a frame with no columns). -/
def frameRowCount (f : Frame) : ℕ :=
  match f with
  | [] => 0
  | (_, c) :: _ => c.length

/-- Model of `pd.DataFrame(data)` on a dict of lists: succeeds when all columns have
equal length, otherwise raises `ValueError` ("All arrays must be of the same
length"). -/
def dataFrameOfColumns (cols : Frame) : Except String Frame :=
  match cols with
  | [] => .ok []
  | (n, c) :: rest =>
    if rest.all (fun q => q.2.length = c.length) then .ok ((n, c) :: rest)
    else .error "All arrays must be of the same length"

/-- Model of `str(i).zfill(w)`: left-pad with zeros to width `w`. -/
def zfill (w : ℕ) (s : String) : String :=
  String.mk (List.replicate (w - s.length) '0') ++ s

/-- Model of `RandomGenerator._generate_subject_ids` (random_generator.py lines
90-108): when a variable named `USUBJID` is configured, produce
`subject_count` identifiers `"SUBJ" + str(i+1).zfill(6)`; otherwise the empty
list. -/
def generateSubjectIds (cfg : DomainGenerationConfig) : List String :=
  if cfg.domainVariables.any (fun v => v.variableName = "USUBJID") then
    (List.range cfg.subjectCount).map
      (fun i => "SUBJ" ++ zfill 6 (toString (i + 1)))
  else []

/-- The `USUBJID` branch of `RandomGenerator._generate_variable_data`
(random_generator.py lines 126-139): each subject id is repeated
`max(1, record_count // len(subject_ids))` times, then the first
`record_count % len(subject_ids)` subject ids are appended. -/
def usubjidColumn (recordCount : ℕ) (subjectIds : List String) : List String :=
  let recordsPerSubject := max 1 (recordCount / subjectIds.length)
  let remaining := recordCount % subjectIds.length
  (subjectIds.flatMap (fun s => List.replicate recordsPerSubject s))
    ++ subjectIds.take remaining

/-- Model of `RandomGenerator._generate_variable_data` (random_generator.py lines
110-153).  The type-dispatched branches (`_generate_numeric_data`, …) all
issue RNG draws; they are supplied by the oracle `draw`, which returns the
column those branches would produce, or the description of an exception one of
them raises. -/
def generateVariableData (cfg : DomainGenerationConfig)
    (draw : VariableGenerationConfig → Except String (List String))
    (v : VariableGenerationConfig) (subjectIds : List String) :
    Except String (List String) :=
  if v.variableName = "USUBJID" ∧ subjectIds ≠ [] then
    .ok (usubjidColumn cfg.recordCount subjectIds)
  else draw v

/-- Model of `DomainGenerationResult` (generation/models/results.py), restricted to the
fields the embedded paths write and the claims read; `variableStats` maps each
variable name to its `generated_count`. -/
structure DomainGenerationResult where
  domainName : String
  status : GenerationStatus
  recordCount : ℕ
  subjectCount : ℕ
  variableStats : List (String × ℕ)
  errorMessage : Option String := none
  qualityScore : Option ℚ := none
deriving DecidableEq, Repr

/-- Model of `BaseGenerator._initialize_result` (base.py lines 55-80): status PENDING,
record and subject counts 0, one stats entry per configured variable with
`generated_count = 0`. -/
def initResult (cfg : DomainGenerationConfig) : DomainGenerationResult :=
  { domainName := cfg.domainName
    status := .pending
    recordCount := 0
    subjectCount := 0
    variableStats := cfg.domainVariables.map (fun v => (v.variableName, 0)) }

/-- Model of `BaseGenerator.update_generation_stats` (base.py lines 94-142) restricted
to the counts: `record_count = len(data)` and, for every configured variable
whose column is present, `generated_count = len(data)`.  (The type-specific
min/max/distribution statistics are not modelled; no claim reads them.) -/
def updateGenerationStats (cfg : DomainGenerationConfig)
    (r : DomainGenerationResult) (data : Frame) : DomainGenerationResult :=
  let nrows := frameRowCount data
  { r with
    recordCount := nrows
    variableStats := cfg.domainVariables.map
      (fun v =>
        (v.variableName,
         if data.any (fun c => c.1 = v.variableName) then nrows else 0)) }

/-- Model of `BaseGenerator.finalize_result` (base.py lines 270-306): first
`update_generation_stats` mutates the result's counts in place (line 284),
then `perform_quality_checks` runs (line 287) — it inspects the typed column
values against each variable's constraints and can itself raise: for instance
the comparison `data[var_name] < constraints.min_value` (line 200) is a
`TypeError` when the column is numeric and the configured bound a string.  On
success the quality score is computed and the status set to COMPLETED.  An
exception from the checks escapes `finalize_result` with the counts already
updated, so the error value carries the mutated result.  The checks depend on
typed cell values and full constraints not carried by the string-cell
`Frame`, so they are supplied as the oracle `performQC`; their missing-values
fragment is embedded separately as `missingValuesCheck`. -/
def finalizeResult (cfg : DomainGenerationConfig)
    (r : DomainGenerationResult) (data : Frame)
    (performQC : Frame → Except String (List DataQualityCheck)) :
    Except (String × DomainGenerationResult) DomainGenerationResult :=
  let r1 := updateGenerationStats cfg r data
  match performQC data with
  | .error e => .error (e, r1)
  | .ok checks =>
    .ok { r1 with
          status := .completed
          qualityScore := some (calculate_quality_score checks r1.recordCount) }

/-- Steps 2-4 of `RandomGenerator.generate` (random_generator.py lines 66-78):
generate the subject ids, produce one column per configured variable, and
assemble the DataFrame.  Any exception from a column generator or from the
DataFrame constructor propagates as `.error`. -/
def randomGenerateBody (cfg : DomainGenerationConfig)
    (draw : VariableGenerationConfig → Except String (List String)) :
    Except String Frame := do
  let subjectIds := generateSubjectIds cfg
  let cols ← cfg.domainVariables.mapM
    (fun v => (generateVariableData cfg draw v subjectIds).map
      (fun c => (v.variableName, c)))
  dataFrameOfColumns cols

/-- Model of `RandomGenerator.generate` (random_generator.py lines 55-88): set status
IN_PROGRESS, run the body, finalize on success; any exception — whether from
the body or from the quality checks inside `finalize_result` — is caught at
the top level, status is set to FAILED and its description stored in
`error_message`, and the result, with whatever fields had been populated by
the time of the exception, is returned. -/
def randomGenerate (cfg : DomainGenerationConfig)
    (draw : VariableGenerationConfig → Except String (List String))
    (performQC : Frame → Except String (List DataQualityCheck)) :
    DomainGenerationResult :=
  let r0 := { initResult cfg with status := .inProgress }
  match randomGenerateBody cfg draw with
  | .error e => { r0 with status := .failed, errorMessage := some e }
  | .ok data =>
    match finalizeResult cfg r0 data performQC with
    | .ok r => r
    | .error (e, r1) => { r1 with status := .failed, errorMessage := some e }

/-- Model of `df.empty` on the optional source table: `True` when the frame has no
columns or no rows. -/
def frameIsEmpty (f : Frame) : Bool :=
  f.isEmpty || frameRowCount f = 0

/-- The generation steps of `StatisticalGenerator.generate`
(statistical_generator.py lines 71-83): fit and generate one column per
variable (the fitting and sampling is RNG-driven and supplied by the oracle
`draw`, which also covers the random-generator fallback for unfitted
variables), then assemble the DataFrame; an exception anywhere propagates as
`.error`. -/
def statisticalGenerateBody (cfg : DomainGenerationConfig)
    (draw : VariableGenerationConfig → Except String (List String)) :
    Except String Frame := do
  let cols ← cfg.domainVariables.mapM
    (fun v => (draw v).map (fun c => (v.variableName, c)))
  dataFrameOfColumns cols

/-- Model of `StatisticalGenerator.generate` (statistical_generator.py lines 54-93):
set status IN_PROGRESS; when the source table is `None` or empty, set status
FAILED with the fixed error message and return; otherwise run the body,
finalize on success; any exception is caught at the top level, recorded as
FAILED, and the result returned. -/
def statisticalGenerate (cfg : DomainGenerationConfig)
    (sourceData : Option Frame)
    (draw : VariableGenerationConfig → Except String (List String))
    (performQC : Frame → Except String (List DataQualityCheck)) :
    DomainGenerationResult :=
  let r0 := { initResult cfg with status := .inProgress }
  let srcMsg := "Source data is required for statistical generation but was not provided"
  match sourceData with
  | none => { r0 with status := .failed, errorMessage := some srcMsg }
  | some sd =>
    if frameIsEmpty sd then
      { r0 with status := .failed, errorMessage := some srcMsg }
    else
      match statisticalGenerateBody cfg draw with
      | .error e => { r0 with status := .failed, errorMessage := some e }
      | .ok data =>
        match finalizeResult cfg r0 data performQC with
        | .ok r => r
        | .error (e, r1) =>
          { r1 with status := .failed, errorMessage := some e }

/-- Field names of the pydantic `DomainGenerationResult` model (results.py
lines 66-83).  There is no `data` field: nothing ever stores a generated
table on the result object, and the read `result.data`
(generator_service.py line 244) raises `AttributeError("data")`. -/
def domainGenerationResultFields : List String :=
  ["domain_name", "domain_type", "config", "status", "record_count",
   "subject_count", "start_time", "end_time", "duration_seconds",
   "output_file", "variable_stats", "error_message", "warnings",
   "quality_score", "metadata"]

/-- Python attribute access on a `DomainGenerationResult` instance: succeeds
for a declared field, raises `AttributeError` carrying the attribute name
otherwise. -/
def domainResultGetattr (name : String) : Except String Unit :=
  if domainGenerationResultFields.contains name then .ok () else .error name

/-- The first loop of `GeneratorService._apply_domain_relationships`
(generator_service.py lines 242-245): collect into `domain_dataframes` the
COMPLETED domains of the job, reading `result.data` for each.  `data` is not
a field of `DomainGenerationResult`, so the read raises at the first
COMPLETED result, and the loop only ever finishes — empty — when no domain is
COMPLETED.  (The `is not None` test after the read is unreachable and
elided.) -/
def buildDomainDataframes
    (domainResults : List (String × GenerationStatus)) :
    Except String (List String) :=
  domainResults.foldlM
    (fun acc r =>
      if r.2 = GenerationStatus.completed then
        (domainResultGetattr "data").map (fun _ => acc ++ [r.1])
      else pure acc) []

/-- Model of `GeneratorService._apply_domain_relationships`
(generator_service.py lines 232-293) on the per-domain statuses and the
generated tables of a job.  The `try` body first builds `domain_dataframes`,
which raises `AttributeError("data")` at the first COMPLETED result; with no
COMPLETED result the `len(domain_dataframes) <= 1` guard returns early; had
control somehow proceeded, `relationship_service.get_relationship_graph()`
(line 251) would raise `AttributeError` as well — `RelationshipAnalysisService`
(analysis/relationships/relationship_service.py) defines no such method, and
`DomainRelationship` (analysis/relationships/models.py) has no
`source_variable`/`target_variable` fields for lines 271-272, only
`join_variables`.  Every exception is swallowed by the method's `except`
(lines 292-293), which only logs.  The returned pair is the tables — never
modified, because the per-edge overwrite loop (lines 258-288) is unreachable —
plus the description of the swallowed exception, if any. -/
def applyDomainRelationships
    (domainResults : List (String × GenerationStatus))
    (tables : List (String × Frame)) :
    List (String × Frame) × Option String :=
  match buildDomainDataframes domainResults with
  | .error e => (tables, some e)
  | .ok dfs =>
    if dfs.length ≤ 1 then (tables, none)
    else (tables, some "get_relationship_graph")

/-- Required fields — declared without a default — of the pydantic
`GenerationJobResult` model (results.py lines 86-102); every other field of
the model carries a default value. -/
def generationJobResultRequiredFields : List String :=
  ["job_id", "project_name", "status", "start_time"]

/-- Keyword arguments supplied to the `GenerationJobResult` constructor at
generator_service.py lines 147-152. -/
def generateDataJobResultKwargs : List String :=
  ["job_id", "status", "domain_results", "start_time"]

/-- Pydantic validation of a constructor call: the required fields that were
not supplied.  A non-empty result means the constructor raises a
`ValidationError` naming them. -/
def pydanticMissingRequired (required supplied : List String) : List String :=
  required.filter (fun f => !supplied.contains f)

/-- Model of the prelude of `GeneratorService.generate_data`
(generator_service.py lines 146-157): the `GenerationJobResult` construction
runs before the `try` at line 157, so a `ValidationError` from it propagates
to the caller and nothing else of `generate_data` runs — no domain is
attempted, no domain result is recorded, and the status aggregation at lines
215-220 (which itself references the nonexistent `GenerationStatus.PARTIAL`
and reads `config.parallel_execution` / `config.domain_configs`, fields that
`GenerationConfig` in models/config.py does not define) never executes. -/
def generateDataPrelude : Except String GenerationStatus :=
  match pydanticMissingRequired generationJobResultRequiredFields
      generateDataJobResultKwargs with
  | [] => .ok .inProgress
  | missing =>
    .error (String.intercalate "; "
      (missing.map (fun f => f ++ ": field required")))

/-- A domain configuration requesting 1 record over 2 subjects, with a
`USUBJID` variable as its only variable. -/
def cfgC1 : DomainGenerationConfig :=
  { domainName := "DM"
    recordCount := 1
    subjectCount := 2
    domainVariables := [{ variableName := "USUBJID", dataType := "text" }] }

/-- C1.  The claim fails on the code: for `record_count = 1` and
`subject_count = 2` with a `USUBJID` variable, `RandomGenerator.generate`
completes with status COMPLETED but the table has 3 rows
(`max(1, 1 // 2) = 1` record per subject for 2 subjects, plus
`1 % 2 = 1` remainder row), so `record_count` and the variable's
`generated_count` are 3, not the requested 1.  (For this input
`perform_quality_checks` genuinely records no checks — one text column with
no constraints and no missing values — so that oracle returns the empty
list.) -/
theorem c1_usubjid_overflow_eval :
    (randomGenerate cfgC1 (fun _ => .ok []) (fun _ => .ok [])).status
      = .completed ∧
    (randomGenerate cfgC1 (fun _ => .ok []) (fun _ => .ok [])).recordCount
      = 3 ∧
    (randomGenerate cfgC1 (fun _ => .ok []) (fun _ => .ok [])).variableStats
      = [("USUBJID", 3)] ∧
    cfgC1.recordCount = 1 := by
  decide

/-- C6.  The claimed status aggregation is unreachable: every call of
`generate_data` raises a pydantic `ValidationError` — the required
`project_name` field of `GenerationJobResult` is not among the constructor
keywords — before the `try`, so no domain is ever attempted, no domain result
is recorded, and no job status is computed; independently, the aggregation
line's `GenerationStatus.PARTIAL` is not a member of the enum. -/
theorem c6_generate_data_validation_error_eval :
    generateDataPrelude = .error "project_name: field required" ∧
    pydanticMissingRequired generationJobResultRequiredFields
      generateDataJobResultKwargs = ["project_name"] ∧
    generationStatusMember "PARTIAL" = none :=
  ⟨rfl, by decide, by decide⟩

/-- C3.  The intended overwrite (generator_service.py lines 277-285 is
exactly the claimed cycling formula) is dead code:
`_apply_domain_relationships` always returns with the tables unmodified,
because reading `result.data` raises `AttributeError` — no such field on
`DomainGenerationResult` — which the method's catch-all swallows.  At the
failing input, two COMPLETED domains joined by a subject relationship, the
target key column keeps whatever values generation produced, and
reconciliation establishes nothing. -/
theorem c3_reconciliation_noop :
    (∀ (domainResults : List (String × GenerationStatus))
       (tables : List (String × Frame)),
        (applyDomainRelationships domainResults tables).1 = tables) ∧
    applyDomainRelationships [("DM", .completed), ("AE", .completed)]
        [("DM", [("USUBJID", ["a", "b"])]),
         ("AE", [("USUBJID", ["z", "z"])])] =
      ([("DM", [("USUBJID", ["a", "b"])]),
        ("AE", [("USUBJID", ["z", "z"])])], some "data") ∧
    domainGenerationResultFields.contains "data" = false := by
  refine ⟨?_, by decide, by decide⟩
  intro domainResults tables
  unfold applyDomainRelationships
  cases buildDomainDataframes domainResults with
  | error e => rfl
  | ok dfs =>
    by_cases h : dfs.length ≤ 1
    · simp [h]
    · simp [h]

/-- C4 counterexample.  `calculate_quality_score` tests the empty-check-list
early return before the zero-row early return, so a zero-row table with no
checks scores 100, not the claimed 0; and a zero-row table with a non-empty
list of passed checks scores 0, not the claimed 100. -/
theorem c4_degenerate_counterexample :
    calculate_quality_score [] 0 = 100 ∧ (100 : ℚ) ≠ 0 ∧
    calculate_quality_score
      [{ checkType := "missing_values", passed := true, issueCount := 0 }] 0
      = 0 ∧ (0 : ℚ) ≠ 100 := by
  decide

/-- C5 counterexample.  With `min_value = max_value = 3/5` and `as_integer`,
the clipped value `3/5` is rounded to `1` after clipping, so the output `1`
violates the claimed bound `v ≤ 3/5`. -/
theorem c5_round_after_clip_counterexample :
    sample_numeric (some (3/5)) (some (3/5)) true [0] = [1] ∧
    ¬ ((1 : ℚ) ≤ 3/5) := by
  constructor
  · simp only [sample_numeric, clipValues, roundHalfEven, List.map_map,
      List.map_cons, List.map_nil, Function.comp]
    norm_num
  · norm_num

/-- C7 counterexample.  An unsupported distribution name issues the default
uniform draw instead of signalling an error, and `max_value < min_value`
(here 1 < 2) silently produces output (`[1]`, the max bound) instead of a
`ConfigurationError` — no such error class exists in the code. -/
theorem c7_invalid_params_counterexample :
    sampleNumericCall "frobnicate" {} none none = .uniform 0 1 ∧
    sample_numeric (some 2) (some 1) false [5] = [1] := by
  decide

/-- C9 counterexample.  When no fitted value belongs to the allowed set
(`allowed_indices` empty), the restriction is skipped and generation draws
from the unrestricted fitted values: the drawn value `"X"` is not a member of
the allowed set `["A"]`. -/
theorem c9_disjoint_allowed_counterexample :
    restrictCategorical [("X", 1)] (some ["A"]) = [("X", 1)] ∧
    "X" ∉ (["A"] : List String) := by
  decide

/-- Domain configuration for the C2 counterexample: one numeric variable; in
the Python original its distribution is POISSON and its constraints carry
`min_value = "abc"` — a string is admitted by the
`Union[int, float, str, date]` type of `ValueConstraint.min_value`. -/
def cfgC2 : DomainGenerationConfig :=
  { domainName := "LB"
    recordCount := 4
    subjectCount := 0
    domainVariables := [{ variableName := "AVAL", dataType := "numeric" }] }

/-- C2 counterexample.  A reachable input on which the caught exception does
not leave the counts at their zero defaults: the Poisson branch never touches
min/max (random_generator.py lines 187-189), so the body succeeds with 4
rows; `update_generation_stats` sets `record_count` and the variable's
`generated_count` to 4 (base.py lines 101, 112); then
`perform_quality_checks` raises a `TypeError` comparing the numeric column
with the string bound (base.py line 200); `generate` catches it and returns a
FAILED result whose `record_count` and `generated_count` are 4, not 0. -/
theorem c2_finalize_nonzero_counts_counterexample :
    (randomGenerate cfgC2 (fun _ => .ok ["7", "2", "9", "11"])
      (fun _ => .error
        "'<' not supported between instances of 'float' and 'str'")).status
      = .failed ∧
    (randomGenerate cfgC2 (fun _ => .ok ["7", "2", "9", "11"])
      (fun _ => .error
        "'<' not supported between instances of 'float' and 'str'")).recordCount
      = 4 ∧
    (randomGenerate cfgC2 (fun _ => .ok ["7", "2", "9", "11"])
      (fun _ => .error
        "'<' not supported between instances of 'float' and 'str'")).variableStats
      = [("AVAL", 4)] ∧
    (4 : ℕ) ≠ 0 := by
  decide

/-- C2 (amended).  `generate()` of both generators never propagates an
exception: the result status is always COMPLETED or FAILED, and any caught
exception's description lands in `error_message`.  The counts retain their
initial zero defaults when the exception occurs during the generation of
variable data or DataFrame assembly, before `finalize_result`; an exception
raised by the quality checks inside `finalize_result` is caught at the same
top level, but by then `update_generation_stats` has already run, so such a
FAILED result carries the generated row count instead of zero.
`StatisticalGenerator` given a `None` or empty source table returns a FAILED
result with the fixed descriptive message and zero counts rather than
raising. -/
theorem c2_generate_failure_semantics_amended :
    (∀ (cfg : DomainGenerationConfig)
       (draw : VariableGenerationConfig → Except String (List String))
       (performQC : Frame → Except String (List DataQualityCheck))
       (e : String), randomGenerateBody cfg draw = .error e →
        (randomGenerate cfg draw performQC).status = .failed ∧
        (randomGenerate cfg draw performQC).errorMessage = some e ∧
        (randomGenerate cfg draw performQC).recordCount = 0 ∧
        (randomGenerate cfg draw performQC).subjectCount = 0 ∧
        ∀ p ∈ (randomGenerate cfg draw performQC).variableStats, p.2 = 0) ∧
    (∀ (cfg : DomainGenerationConfig)
       (draw : VariableGenerationConfig → Except String (List String))
       (performQC : Frame → Except String (List DataQualityCheck))
       (data : Frame) (e : String),
        randomGenerateBody cfg draw = .ok data → performQC data = .error e →
        (randomGenerate cfg draw performQC).status = .failed ∧
        (randomGenerate cfg draw performQC).errorMessage = some e ∧
        (randomGenerate cfg draw performQC).recordCount
          = frameRowCount data) ∧
    (∀ (cfg : DomainGenerationConfig)
       (draw : VariableGenerationConfig → Except String (List String))
       (performQC : Frame → Except String (List DataQualityCheck)),
        (randomGenerate cfg draw performQC).status = .completed ∨
        (randomGenerate cfg draw performQC).status = .failed) ∧
    (∀ (cfg : DomainGenerationConfig) (sourceData : Option Frame)
       (draw : VariableGenerationConfig → Except String (List String))
       (performQC : Frame → Except String (List DataQualityCheck)),
        (sourceData = none ∨
          ∃ sd, sourceData = some sd ∧ frameIsEmpty sd = true) →
        (statisticalGenerate cfg sourceData draw performQC).status
          = .failed ∧
        (statisticalGenerate cfg sourceData draw performQC).errorMessage =
          some "Source data is required for statistical generation but was not provided" ∧
        (statisticalGenerate cfg sourceData draw performQC).recordCount
          = 0) ∧
    (∀ (cfg : DomainGenerationConfig) (sd : Frame)
       (draw : VariableGenerationConfig → Except String (List String))
       (performQC : Frame → Except String (List DataQualityCheck))
       (e : String), statisticalGenerateBody cfg draw = .error e →
        frameIsEmpty sd = false →
        (statisticalGenerate cfg (some sd) draw performQC).status
          = .failed ∧
        (statisticalGenerate cfg (some sd) draw performQC).errorMessage
          = some e ∧
        (statisticalGenerate cfg (some sd) draw performQC).recordCount
          = 0) ∧
    (∀ (cfg : DomainGenerationConfig) (sourceData : Option Frame)
       (draw : VariableGenerationConfig → Except String (List String))
       (performQC : Frame → Except String (List DataQualityCheck)),
        (statisticalGenerate cfg sourceData draw performQC).status
          = .completed ∨
        (statisticalGenerate cfg sourceData draw performQC).status
          = .failed) := by
  refine ⟨?_, ?_, ?_, ?_, ?_, ?_⟩
  · intro cfg draw performQC e h
    simp only [randomGenerate, h, initResult]
    refine ⟨trivial, trivial, trivial, trivial, ?_⟩
    intro p hp
    simp only [List.mem_map] at hp
    obtain ⟨v, -, rfl⟩ := hp
    rfl
  · intro cfg draw performQC data e hb hqc
    simp [randomGenerate, hb, finalizeResult, hqc, updateGenerationStats]
  · intro cfg draw performQC
    cases hb : randomGenerateBody cfg draw with
    | error e => right; simp [randomGenerate, hb]
    | ok data =>
      cases hqc : performQC data with
      | ok checks => left; simp [randomGenerate, hb, finalizeResult, hqc]
      | error e => right; simp [randomGenerate, hb, finalizeResult, hqc]
  · intro cfg sourceData draw performQC h
    rcases h with rfl | ⟨sd, rfl, hsd⟩
    · simp [statisticalGenerate, initResult]
    · simp [statisticalGenerate, hsd, initResult]
  · intro cfg sd draw performQC e hb hsd
    simp only [statisticalGenerate, hsd, Bool.false_eq_true, if_false, hb,
      initResult]
    exact ⟨trivial, trivial, trivial⟩
  · intro cfg sourceData draw performQC
    cases sourceData with
    | none => right; simp [statisticalGenerate]
    | some sd =>
      by_cases hsd : frameIsEmpty sd
      · right; simp [statisticalGenerate, hsd]
      · cases hb : statisticalGenerateBody cfg draw with
        | error e => right; simp [statisticalGenerate, hsd, hb]
        | ok data =>
          cases hqc : performQC data with
          | ok checks =>
            left
            simp [statisticalGenerate, hsd, hb, finalizeResult, hqc]
          | error e =>
            right
            simp [statisticalGenerate, hsd, hb, finalizeResult, hqc]

/-- Witness for C2: a random generator whose numeric branch raises is FAILED
with the message recorded, and a statistical generator with no source table
is FAILED with the descriptive message. -/
theorem c2_generate_failure_semantics_amended_witness :
    (randomGenerate ⟨"DM", 2, 0, [⟨"AGE", "numeric"⟩]⟩
        (fun _ => .error "boom") (fun _ => .ok [])).status = .failed ∧
    (statisticalGenerate ⟨"LB", 10, 2, []⟩ none (fun _ => .ok [])
        (fun _ => .ok [])).errorMessage =
      some "Source data is required for statistical generation but was not provided" := by
  have hbody : randomGenerateBody ⟨"DM", 2, 0, [⟨"AGE", "numeric"⟩]⟩
      (fun _ => .error "boom") = .error "boom" := rfl
  constructor
  · exact (c2_generate_failure_semantics_amended.1
      ⟨"DM", 2, 0, [⟨"AGE", "numeric"⟩]⟩ (fun _ => .error "boom")
      (fun _ => .ok []) "boom" hbody).1
  · exact (c2_generate_failure_semantics_amended.2.2.2.1
      ⟨"LB", 10, 2, []⟩ none (fun _ => .ok []) (fun _ => .ok [])
      (Or.inl rfl)).2.1

/-- C8.  For date components sampled from marginals fitted on real dates
(year in `datetime`'s range, month in 1..12, day in 1..31), the repair logic
of `StatisticalGenerator._generate_date_from_distribution` never raises: a
valid combination is kept as-is, and an invalid one is repaired exactly to the
last valid day of that year and month (leap-year aware for February). -/
theorem c8_date_repair (y m d : ℤ)
    (hy1 : 1 ≤ y) (hy2 : y ≤ 9999) (hm1 : 1 ≤ m) (hm2 : m ≤ 12)
    (hd1 : 1 ≤ d) (hd2 : d ≤ 31) :
    (isValidDate y m d = true → repairDateComponents y m d = some (y, m, d)) ∧
    (isValidDate y m d = false →
      repairDateComponents y m d = some (y, m, daysInMonth y m)) := by
  have hvalid : ∀ dd : ℤ, 1 ≤ dd → dd ≤ daysInMonth y m →
      isValidDate y m dd = true := by
    intro dd h1 h2
    simp [isValidDate, hy1, hy2, hm1, hm2, h1, h2]
  have hd28 : (28 : ℤ) ≤ daysInMonth y m := by
    simp only [daysInMonth]
    split_ifs <;> norm_num
  constructor
  · intro h
    simp [repairDateComponents, h]
  · intro h
    have hlt : daysInMonth y m < d := by
      by_contra hle
      push_neg at hle
      rw [hvalid d hd1 hle] at h
      simp at h
    have hclamp :
        (if m = 2 then (if isLeapYear y then min d 29 else min d 28)
         else if m = 4 ∨ m = 6 ∨ m = 9 ∨ m = 11 then min d 30
         else min d 31) = min d (daysInMonth y m) := by
      simp only [daysInMonth]
      split_ifs <;> rfl
    have hmin : min d (daysInMonth y m) = daysInMonth y m :=
      min_eq_right hlt.le
    have h3 : isValidDate y m (daysInMonth y m) = true :=
      hvalid _ (by linarith) le_rfl
    simp only [repairDateComponents, h, Bool.false_eq_true, if_false,
      hclamp, hmin, h3, if_true]

/-- Witness for C8 (the claim's own instance): the invalid draw
year 2024, month 2, day 30 is repaired to 2024-02-29 — 2024 is a leap year —
and no error is raised. -/
theorem c8_date_repair_witness :
    repairDateComponents 2024 2 30 = some (2024, 2, 29) := by
  have h := (c8_date_repair 2024 2 30 (by norm_num) (by norm_num)
    (by norm_num) (by norm_num) (by norm_num) (by norm_num)).2 (by decide)
  rw [h]
  norm_num [daysInMonth, isLeapYear]

theorem checkPenalty_of_passed (c : DataQualityCheck) (n : ℕ)
    (h : c.passed = true) : checkPenalty c n = 0 := by
  simp [checkPenalty, h]

theorem foldl_sub_checkPenalty_passed (n : ℕ) :
    ∀ (cs : List DataQualityCheck) (a : ℚ), (∀ c ∈ cs, c.passed = true) →
      cs.foldl (fun s c => s - checkPenalty c n) a = a
  | [], _, _ => rfl
  | c :: cs, a, h => by
    have hc : c.passed = true := h c (List.mem_cons_self c cs)
    rw [List.foldl_cons, checkPenalty_of_passed c n hc, sub_zero]
    exact foldl_sub_checkPenalty_passed n cs a
      (fun x hx => h x (List.mem_cons_of_mem _ hx))

/-- C4 (amended).  `calculate_quality_score` always returns a value in
`[0, 100]`; it returns 100 for an empty check list even when the table has
zero rows (the empty-list early return precedes the zero-row early return);
it returns 0 for a zero-row table only when the check list is non-empty; and
it returns exactly 100 for a non-empty check list with no failed checks
provided the table has at least one row. -/
theorem c4_quality_score_amended :
    (∀ (cs : List DataQualityCheck) (n : ℕ),
        0 ≤ calculate_quality_score cs n ∧
        calculate_quality_score cs n ≤ 100) ∧
    (∀ (n : ℕ), calculate_quality_score [] n = 100) ∧
    (∀ (cs : List DataQualityCheck), cs ≠ [] →
        calculate_quality_score cs 0 = 0) ∧
    (∀ (cs : List DataQualityCheck) (n : ℕ), cs ≠ [] → n ≠ 0 →
        (∀ c ∈ cs, c.passed = true) → calculate_quality_score cs n = 100) := by
  refine ⟨?_, ?_, ?_, ?_⟩
  · intro cs n
    unfold calculate_quality_score
    split_ifs
    · norm_num
    · norm_num
    · exact ⟨le_max_left 0 _, max_le (by norm_num) (min_le_left _ _)⟩
  · intro n
    simp [calculate_quality_score]
  · intro cs h
    simp [calculate_quality_score, h]
  · intro cs n h hn hall
    unfold calculate_quality_score
    rw [if_neg h, if_neg hn]
    show max 0 (min 100 (cs.foldl (fun s c => s - checkPenalty c n) 100)) = 100
    rw [foldl_sub_checkPenalty_passed n cs 100 hall]
    norm_num

/-- Witness for C4: a one-row-threshold instantiation of each amended part at
concrete inputs. -/
theorem c4_quality_score_amended_witness :
    calculate_quality_score
      [{ checkType := "missing_values", passed := true, issueCount := 2 }] 5
      = 100 := by
  refine c4_quality_score_amended.2.2.2 _ 5 (by simp) (by norm_num) ?_
  intro c hc
  simp only [List.mem_singleton] at hc
  rw [hc]

/-- C10.  For a nullable variable, any missing-values check recorded by
`perform_quality_checks` has `passed = True` (it is only recorded at all when
the missing count exceeds half the rows), the recorded check implies a
non-empty table, and appending such a passed check to any check list leaves
`calculate_quality_score` unchanged for a table with at least one row —
it never reduces the quality score. -/
theorem c10_nullable_missing_check (missing rec : ℕ) (c : DataQualityCheck)
    (h : missingValuesCheck true missing rec = some c) :
    c.passed = true ∧ 0 < missing ∧
    ∀ (cs : List DataQualityCheck) (n : ℕ), 0 < n →
      calculate_quality_score (cs ++ [c]) n = calculate_quality_score cs n := by
  unfold missingValuesCheck at h
  split_ifs at h with h1 h2
  have hc := Option.some.inj h
  subst hc
  refine ⟨rfl, h1, ?_⟩
  intro cs n hn
  have hpen : checkPenalty
      { checkType := "missing_values", passed := true, issueCount := missing }
      n = 0 := checkPenalty_of_passed _ n rfl
  by_cases hcs : cs = []
  · subst hcs
    unfold calculate_quality_score
    rw [if_pos rfl, if_neg (by simp), if_neg hn.ne']
    show max 0 (min 100 (List.foldl (fun s c => s - checkPenalty c n) 100 _))
      = 100
    rw [List.nil_append, List.foldl_cons, hpen, sub_zero, List.foldl_nil]
    norm_num
  · unfold calculate_quality_score
    rw [if_neg (by simp [hcs]), if_neg hcs, if_neg hn.ne', if_neg hn.ne']
    show max 0 (min 100 (List.foldl (fun s c => s - checkPenalty c n) 100 _))
      = max 0 (min 100 (List.foldl (fun s c => s - checkPenalty c n) 100 cs))
    rw [List.foldl_append, List.foldl_cons, hpen, sub_zero, List.foldl_nil]

/-- Witness for C10: the check recorded for a nullable variable with 3 of 4
values missing is passed and leaves the score of a 4-row table unchanged. -/
theorem c10_nullable_missing_check_witness :
    calculate_quality_score
      ([] ++ [{ checkType := "missing_values", passed := true,
                issueCount := 3 }]) 4
      = calculate_quality_score [] 4 :=
  (c10_nullable_missing_check 3 4
    { checkType := "missing_values", passed := true, issueCount := 3 }
    (by decide)).2.2 [] 4 (by norm_num)

theorem roundHalfEven_bounds (x : ℚ) :
    x - 1/2 ≤ (roundHalfEven x : ℚ) ∧ (roundHalfEven x : ℚ) ≤ x + 1/2 := by
  have hfl : (⌊x⌋ : ℚ) ≤ x := Int.floor_le x
  have hfu : x < ⌊x⌋ + 1 := Int.lt_floor_add_one x
  simp only [roundHalfEven]
  split_ifs with h1 h2 h3
  · constructor <;> linarith
  · rw [not_lt] at h1
    push_cast
    constructor <;> linarith
  · rw [not_lt] at h1 h2
    constructor <;> linarith
  · rw [not_lt] at h1 h2
    push_cast
    constructor <;> linarith

theorem le_roundHalfEven_of_int_le (x : ℚ) (za : ℤ) (h : (za : ℚ) ≤ x) :
    za ≤ roundHalfEven x := by
  have hfz : za ≤ ⌊x⌋ := Int.le_floor.mpr h
  simp only [roundHalfEven]
  split_ifs <;> omega

theorem roundHalfEven_le_of_le_int (x : ℚ) (zb : ℤ) (h : x ≤ (zb : ℚ)) :
    roundHalfEven x ≤ zb := by
  have hfl : (⌊x⌋ : ℚ) ≤ x := Int.floor_le x
  have hfz : ⌊x⌋ ≤ zb := by
    have := Int.floor_le_floor h
    rwa [Int.floor_intCast] at this
  have hsucc : ∀ h2 : ¬ x - (⌊x⌋ : ℚ) < 1/2, ⌊x⌋ + 1 ≤ zb := by
    intro h2
    rw [not_lt] at h2
    rcases lt_or_eq_of_le hfz with hlt | heq
    · omega
    · exfalso
      have hxz : x ≤ (⌊x⌋ : ℚ) := by
        rw [heq]
        exact h
      linarith
  simp only [roundHalfEven]
  split_ifs with h1 h2 h3
  · exact hfz
  · exact hsucc h1
  · exact hfz
  · exact hsucc h1

theorem mem_clipValues_bounds (a b : ℚ) (hab : a ≤ b) (raws : List ℚ)
    (v : ℚ) (hv : v ∈ clipValues (some a) (some b) raws) :
    a ≤ v ∧ v ≤ b := by
  simp only [clipValues, List.map_map, List.mem_map, Function.comp] at hv
  obtain ⟨x, -, rfl⟩ := hv
  exact ⟨le_min (le_max_right x a) hab, min_le_right _ b⟩

/-- C5 (amended).  With explicit numeric constraints `a ≤ b`, every value
produced by `sample_numeric` lies in `[a, b]` when `as_integer` is false.
When `as_integer` is requested, rounding is applied after clipping, so the
result is only guaranteed to lie in `[a - 1/2, b + 1/2]`; the claimed bound
`a ≤ v ≤ b` does hold additionally whenever `a` and `b` are themselves
integers. -/
theorem c5_numeric_bounds_amended (a b : ℚ) (raws : List ℚ) (hab : a ≤ b) :
    (∀ v ∈ sample_numeric (some a) (some b) false raws, a ≤ v ∧ v ≤ b) ∧
    (∀ v ∈ sample_numeric (some a) (some b) true raws,
        a - 1/2 ≤ v ∧ v ≤ b + 1/2) ∧
    (∀ za zb : ℤ, a = (za : ℚ) → b = (zb : ℚ) →
        ∀ v ∈ sample_numeric (some a) (some b) true raws,
          a ≤ v ∧ v ≤ b) := by
  refine ⟨?_, ?_, ?_⟩
  · intro v hv
    simp only [sample_numeric, Bool.false_eq_true, if_false] at hv
    exact mem_clipValues_bounds a b hab raws v hv
  · intro v hv
    simp only [sample_numeric, if_true, List.mem_map] at hv
    obtain ⟨w, hw, rfl⟩ := hv
    have hwb := mem_clipValues_bounds a b hab raws w hw
    have hr := roundHalfEven_bounds w
    exact ⟨by linarith [hr.1, hwb.1], by linarith [hr.2, hwb.2]⟩
  · intro za zb ha hb v hv
    simp only [sample_numeric, if_true, List.mem_map] at hv
    obtain ⟨w, hw, rfl⟩ := hv
    have hwb := mem_clipValues_bounds a b hab raws w hw
    subst ha hb
    constructor
    · exact_mod_cast le_roundHalfEven_of_int_le w za hwb.1
    · exact_mod_cast roundHalfEven_le_of_le_int w zb hwb.2

/-- Witness for C5: the raw draw 25 under constraints `[0, 10]` without
integer conversion is clipped to 10, inside the bounds. -/
theorem c5_numeric_bounds_amended_witness :
    sample_numeric (some 0) (some 10) false [(25 : ℚ)] = [10] ∧
    ((0 : ℚ) ≤ 10 ∧ (10 : ℚ) ≤ 10) := by
  constructor
  · norm_num [sample_numeric, clipValues]
  · exact (c5_numeric_bounds_amended 0 10 [25] (by norm_num)).1 10
      (by norm_num [sample_numeric, clipValues])

/-- C7 (amended).  `sample_numeric` signals no error on an invalid parameter
set: with `max_value < min_value` it silently returns output — every value
equal to `max_value`, because the min bound is applied first and the max
bound second — and an unsupported distribution name silently issues the same
uniform draw as the `"uniform"` branch.  No `ConfigurationError` is raised
(none exists in the code). -/
theorem c7_silent_invalid_params_amended :
    (∀ (a b : ℚ) (raws : List ℚ), b < a →
        sample_numeric (some a) (some b) false raws =
          raws.map (fun _ => b)) ∧
    (∀ (dist : String) (params : NumericParams) (mi ma : Option ℚ),
        dist ∉ ["normal", "uniform", "poisson", "exponential", "gamma",
                "beta", "lognormal", "binomial"] →
        sampleNumericCall dist params mi ma =
          sampleNumericCall "uniform" params mi ma) := by
  constructor
  · intro a b raws hba
    simp only [sample_numeric, clipValues, List.map_map, Bool.false_eq_true,
      if_false]
    refine List.map_congr_left ?_
    intro x _
    exact min_eq_right (le_trans hba.le (le_max_right x a))
  · intro dist params mi ma h
    simp only [List.mem_cons, List.not_mem_nil, or_false, not_or] at h
    obtain ⟨h1, h2, h3, h4, h5, h6, h7, h8⟩ := h
    simp [sampleNumericCall, h1, h2, h3, h4, h5, h6, h7, h8]

/-- Witness for C7: with bounds `min = 2 > max = 1`, the draws 5 and 0 are
both silently turned into the max bound 1. -/
theorem c7_silent_invalid_params_amended_witness :
    sample_numeric (some 2) (some 1) false [(5 : ℚ), 0] =
      [(5 : ℚ), 0].map (fun _ => 1) :=
  c7_silent_invalid_params_amended.1 2 1 [5, 0] (by norm_num)

theorem sum_map_div (l : List (String × ℚ)) (t : ℚ) :
    (l.map (fun v => v.2 / t)).sum = (l.map (fun v => v.2)).sum / t := by
  induction l with
  | nil => simp
  | cons x xs ih => simp [ih, add_div]

/-- C9 (amended).  When the constraints carry a non-empty allowed-value set
and at least one fitted value belongs to it, the restricted distribution that
`_generate_categorical_from_distribution` draws from contains only allowed
values and its probabilities are renormalised to sum to exactly 1; when no
fitted value is allowed the restriction is skipped and the draw uses the
unrestricted fitted values. -/
theorem c9_restrict_amended (fitted : List (String × ℚ))
    (allowed : List String) (hne : allowed ≠ [])
    (hfit : fitted.filter (fun v => allowed.contains v.1) ≠ [])
    (hpos : ∀ v ∈ fitted, 0 < v.2) :
    (∀ q ∈ restrictCategorical fitted (some allowed), q.1 ∈ allowed) ∧
    ((restrictCategorical fitted (some allowed)).map (fun q => q.2)).sum
      = 1 := by
  have htot :
      0 < ((fitted.filter (fun v => allowed.contains v.1)).map
            (fun v => v.2)).sum := by
    apply List.sum_pos
    · intro x hx
      simp only [List.mem_map] at hx
      obtain ⟨v, hv, rfl⟩ := hx
      exact hpos v (List.mem_of_mem_filter hv)
    · simpa [List.map_eq_nil] using hfit
  constructor
  · intro q hq
    simp only [restrictCategorical, if_neg hne, if_neg hfit,
      List.mem_map] at hq
    obtain ⟨v, hv, rfl⟩ := hq
    have := (List.mem_filter.mp hv).2
    simpa using this
  · simp only [restrictCategorical, if_neg hne, if_neg hfit, List.map_map]
    have hcomp :
        ((fun q : String × ℚ => q.2) ∘
          (fun v : String × ℚ =>
            (v.1, v.2 / ((fitted.filter (fun v => allowed.contains v.1)).map
              (fun v => v.2)).sum))) =
        (fun v : String × ℚ =>
          v.2 / ((fitted.filter (fun v => allowed.contains v.1)).map
            (fun v => v.2)).sum) := rfl
    rw [hcomp, sum_map_div]
    exact div_self htot.ne'

/-- Witness for C9: fitted values `A` (weight 3) and `B` (weight 1) restricted
to the allowed set `["A"]` renormalise to probability mass exactly 1. -/
theorem c9_restrict_amended_witness :
    ((restrictCategorical [("A", 3), ("B", 1)] (some ["A"])).map
      (fun q => q.2)).sum = 1 :=
  (c9_restrict_amended [("A", 3), ("B", 1)] ["A"] (by decide) (by decide)
    (by decide)).2

end DataReplicator
